import Mathlib

/-!
Verification of the event-logger facility of the behavioral-model repository
(`include/bm/bm_sim/event_logger.h`).

The header declares class `EventLogger` (members `transport_instance` and
`device_id`), one method per event kind, the lazily-created process-wide
instance (`get`), re-initialization (`init`), and the `BMELOG` macro which
expands to nothing when `BM_ELOG_ON` is not defined.  The method bodies
(message construction and publishing) are not part of the sources at hand,
so they are modelled from the specification (its message-construction
algorithm and wire format); every such definition is marked.
-/

namespace bm

/-- `device_id_t` (from `device_id.h`): an unsigned integer tag; modelled as a
natural number (it is only ever stored and copied, never computed with). -/
abbrev device_id_t := Nat

/-- `entry_handle_t = uint32_t` (line 53): an opaque handle, only carried. -/
abbrev entry_handle_t := Nat

/-- `header_id_t` (from `phv_forward.h`): a header identifier, only carried. -/
abbrev header_id_t := Nat

/-- A packet: carries its identifier and the ingress/egress port metadata the
spec says `packet_in` / `packet_out` read ("ingress/egress port numbers (from
packet metadata)"). -/
structure Packet where
  id : Nat
  ingress_port : Nat
  egress_port : Nat
deriving DecidableEq

/-- Forward-declared P4 object (line 43): the logger only reads its stable
identifier. -/
structure Parser where
  id : Nat
deriving DecidableEq

/-- Forward-declared P4 object (line 44). -/
structure Deparser where
  id : Nat
deriving DecidableEq

/-- Forward-declared P4 object (line 45). -/
structure MatchTableAbstract where
  id : Nat
deriving DecidableEq

/-- Forward-declared P4 object (line 47). -/
structure ActionFn where
  id : Nat
deriving DecidableEq

/-- Forward-declared P4 object (line 48); the spec leaves its serialization
open and treats it as an opaque reference. -/
structure ActionData where
  ref : Nat
deriving DecidableEq

/-- Forward-declared P4 object (line 49). -/
structure Conditional where
  id : Nat
deriving DecidableEq

/-- Forward-declared P4 object (line 50). -/
structure Checksum where
  id : Nat
deriving DecidableEq

/-- Forward-declared P4 object (line 51). -/
structure Pipeline where
  id : Nat
deriving DecidableEq

/-- One typed field of a wire message: "each a fixed-width integer or
boolean" (spec wire format). -/
inductive MsgField where
  | int (n : Nat)
  | bool (b : Bool)
deriving DecidableEq

/-- A message: "an ordered, densely packed sequence of fields". -/
abbrev Message := List MsgField

/-- The event kinds, one per row of the spec's variant table. -/
inductive EventKind where
  | PacketIn
  | PacketOut
  | ParserStart
  | ParserDone
  | ParserExtract
  | DeparserStart
  | DeparserDone
  | DeparserEmit
  | ChecksumUpdate
  | PipelineStart
  | PipelineDone
  | ConditionEval
  | TableHit
  | TableMiss
  | ActionExecute
  | ConfigChange
deriving DecidableEq

/-- Modelled from the spec: the "fixed small integer naming the event kind"
(the event-kind discriminant), one value per table row, assigned in table
order.  The numbering itself is not fixed by the sources at hand; only its
fixedness per kind matters below. -/
def EventKind.discriminant : EventKind → Nat
  | .PacketIn => 0
  | .PacketOut => 1
  | .ParserStart => 2
  | .ParserDone => 3
  | .ParserExtract => 4
  | .DeparserStart => 5
  | .DeparserDone => 6
  | .DeparserEmit => 7
  | .ChecksumUpdate => 8
  | .PipelineStart => 9
  | .PipelineDone => 10
  | .ConditionEval => 11
  | .TableHit => 12
  | .TableMiss => 13
  | .ActionExecute => 14
  | .ConfigChange => 15

/-- Modelled from the spec: `TransportIface` (from `transport.h`, not among
the sources at hand) is a publish-capable channel that "may silently drop
messages"; the "dummy" variant "accepts and discards every message".  A
channel transport is modelled with the list of messages it has accepted, so
publishing is observable. -/
inductive TransportIface where
  | dummy
  | channel (accepted : List Message)
deriving DecidableEq

/-- Modelled from the spec: `publish(bytes)`; returns the transport after the
call together with whether the message was delivered (the dummy transport
discards everything).  Callers of the facility never see the flag. -/
def TransportIface.publish : TransportIface → Message → TransportIface × Bool
  | .dummy, _ => (.dummy, false)
  | .channel ms, m => (.channel (ms ++ [m]), true)

/-- The messages a transport has retained (the dummy retains none). -/
def TransportIface.retained : TransportIface → List Message
  | .dummy => []
  | .channel ms => ms

/-- `TransportIface::make_dummy()` (used at line 105). -/
def TransportIface.make_dummy : TransportIface := .dummy

/-- The `EventLogger` class state (lines 115-117): exactly two members, an
owned transport handle and a device id. -/
structure EventLogger where
  transport_instance : TransportIface
  device_id : device_id_t
deriving DecidableEq

/-- The constructor (lines 70-72): stores the transport and the device id. -/
def EventLogger.new (transport : TransportIface) (device_id : device_id_t) :
    EventLogger :=
  { transport_instance := transport, device_id := device_id }

/-- The constructor invoked with its `device_id` argument omitted: the
declaration (line 71) defaults it to `0`. -/
def EventLogger.newDefault (transport : TransportIface) : EventLogger :=
  EventLogger.new transport 0

/-- Modelled from the spec: the message-construction algorithm for a
packet-bearing variant — "an ordered sequence of typed fields — device id, a
fixed small integer naming the event kind, the packet identifier, then the
variant-specific fields". -/
def buildMsg (dev : device_id_t) (kind : EventKind) (packet_id : Nat)
    (extra : List MsgField) : Message :=
  MsgField.int dev :: MsgField.int kind.discriminant ::
    MsgField.int packet_id :: extra

/-- Modelled from the spec: the message for `config_change`, whose
declaration (line 102) receives no packet, so no packet identifier is
available to serialize; the message holds the device id and the kind
discriminant only ("no extra fields"). -/
def buildMsgNoPacket (dev : device_id_t) (kind : EventKind) : Message :=
  [MsgField.int dev, MsgField.int kind.discriminant]

/-- Modelled from the spec: each per-event method "builds a message, and
publishes it through the transport" as a single message; the delivery flag is
dropped (drops are swallowed, never surfaced). -/
def EventLogger.emit (lg : EventLogger) (msg : Message) : EventLogger :=
  { lg with transport_instance := (lg.transport_instance.publish msg).1 }

/-- `packet_in` (line 76).  Modelled from the spec: extra field is the
ingress port from packet metadata. -/
def EventLogger.packet_in (lg : EventLogger) (packet : Packet) : EventLogger :=
  lg.emit (buildMsg lg.device_id .PacketIn packet.id
    [MsgField.int packet.ingress_port])

/-- `packet_out` (line 78).  Modelled from the spec: extra field is the
egress port from packet metadata. -/
def EventLogger.packet_out (lg : EventLogger) (packet : Packet) : EventLogger :=
  lg.emit (buildMsg lg.device_id .PacketOut packet.id
    [MsgField.int packet.egress_port])

/-- `parser_start` (line 80).  Modelled from the spec: extra field is the
parser identifier. -/
def EventLogger.parser_start (lg : EventLogger) (packet : Packet)
    (p : Parser) : EventLogger :=
  lg.emit (buildMsg lg.device_id .ParserStart packet.id [MsgField.int p.id])

/-- `parser_done` (line 81).  Modelled from the spec. -/
def EventLogger.parser_done (lg : EventLogger) (packet : Packet)
    (p : Parser) : EventLogger :=
  lg.emit (buildMsg lg.device_id .ParserDone packet.id [MsgField.int p.id])

/-- `parser_extract` (line 82).  Modelled from the spec: extra field is the
header identifier. -/
def EventLogger.parser_extract (lg : EventLogger) (packet : Packet)
    (header : header_id_t) : EventLogger :=
  lg.emit (buildMsg lg.device_id .ParserExtract packet.id [MsgField.int header])

/-- `deparser_start` (line 84).  Modelled from the spec. -/
def EventLogger.deparser_start (lg : EventLogger) (packet : Packet)
    (d : Deparser) : EventLogger :=
  lg.emit (buildMsg lg.device_id .DeparserStart packet.id [MsgField.int d.id])

/-- `deparser_done` (line 85).  Modelled from the spec. -/
def EventLogger.deparser_done (lg : EventLogger) (packet : Packet)
    (d : Deparser) : EventLogger :=
  lg.emit (buildMsg lg.device_id .DeparserDone packet.id [MsgField.int d.id])

/-- `deparser_emit` (line 86).  Modelled from the spec. -/
def EventLogger.deparser_emit (lg : EventLogger) (packet : Packet)
    (header : header_id_t) : EventLogger :=
  lg.emit (buildMsg lg.device_id .DeparserEmit packet.id [MsgField.int header])

/-- `checksum_update` (line 88).  Modelled from the spec. -/
def EventLogger.checksum_update (lg : EventLogger) (packet : Packet)
    (c : Checksum) : EventLogger :=
  lg.emit (buildMsg lg.device_id .ChecksumUpdate packet.id [MsgField.int c.id])

/-- `pipeline_start` (line 90).  Modelled from the spec. -/
def EventLogger.pipeline_start (lg : EventLogger) (packet : Packet)
    (p : Pipeline) : EventLogger :=
  lg.emit (buildMsg lg.device_id .PipelineStart packet.id [MsgField.int p.id])

/-- `pipeline_done` (line 91).  Modelled from the spec. -/
def EventLogger.pipeline_done (lg : EventLogger) (packet : Packet)
    (p : Pipeline) : EventLogger :=
  lg.emit (buildMsg lg.device_id .PipelineDone packet.id [MsgField.int p.id])

/-- `condition_eval` (lines 93-94).  Modelled from the spec: extra fields are
the conditional identifier and the boolean result. -/
def EventLogger.condition_eval (lg : EventLogger) (packet : Packet)
    (cond : Conditional) (result : Bool) : EventLogger :=
  lg.emit (buildMsg lg.device_id .ConditionEval packet.id
    [MsgField.int cond.id, MsgField.bool result])

/-- `table_hit` (lines 95-96).  Modelled from the spec: extra fields are the
table identifier and the entry handle. -/
def EventLogger.table_hit (lg : EventLogger) (packet : Packet)
    (table : MatchTableAbstract) (handle : entry_handle_t) : EventLogger :=
  lg.emit (buildMsg lg.device_id .TableHit packet.id
    [MsgField.int table.id, MsgField.int handle])

/-- `table_miss` (line 97).  Modelled from the spec: extra field is the table
identifier. -/
def EventLogger.table_miss (lg : EventLogger) (packet : Packet)
    (table : MatchTableAbstract) : EventLogger :=
  lg.emit (buildMsg lg.device_id .TableMiss packet.id [MsgField.int table.id])

/-- `action_execute` (lines 99-100).  Modelled from the spec: extra fields
are the action-function identifier and the opaque action-data reference. -/
def EventLogger.action_execute (lg : EventLogger) (packet : Packet)
    (action_fn : ActionFn) (action_data : ActionData) : EventLogger :=
  lg.emit (buildMsg lg.device_id .ActionExecute packet.id
    [MsgField.int action_fn.id, MsgField.int action_data.ref])

/-- `config_change` (line 102): declared without any packet argument.
Modelled from the spec: publishes one message with no variant-specific
fields; with no packet passed, no packet identifier can be serialized. -/
def EventLogger.config_change (lg : EventLogger) : EventLogger :=
  lg.emit (buildMsgNoPacket lg.device_id .ConfigChange)

/-- One invocation of a per-event method, with its arguments (the argument
lists mirror the declarations at lines 76-102). -/
inductive EventCall where
  | packet_in (packet : Packet)
  | packet_out (packet : Packet)
  | parser_start (packet : Packet) (p : Parser)
  | parser_done (packet : Packet) (p : Parser)
  | parser_extract (packet : Packet) (header : header_id_t)
  | deparser_start (packet : Packet) (d : Deparser)
  | deparser_done (packet : Packet) (d : Deparser)
  | deparser_emit (packet : Packet) (header : header_id_t)
  | checksum_update (packet : Packet) (c : Checksum)
  | pipeline_start (packet : Packet) (p : Pipeline)
  | pipeline_done (packet : Packet) (p : Pipeline)
  | condition_eval (packet : Packet) (cond : Conditional) (result : Bool)
  | table_hit (packet : Packet) (table : MatchTableAbstract)
      (handle : entry_handle_t)
  | table_miss (packet : Packet) (table : MatchTableAbstract)
  | action_execute (packet : Packet) (action_fn : ActionFn)
      (action_data : ActionData)
  | config_change
deriving DecidableEq

/-- Dispatch an `EventCall` to the corresponding method of the logger. -/
def EventLogger.invoke (lg : EventLogger) : EventCall → EventLogger
  | .packet_in packet => lg.packet_in packet
  | .packet_out packet => lg.packet_out packet
  | .parser_start packet p => lg.parser_start packet p
  | .parser_done packet p => lg.parser_done packet p
  | .parser_extract packet header => lg.parser_extract packet header
  | .deparser_start packet d => lg.deparser_start packet d
  | .deparser_done packet d => lg.deparser_done packet d
  | .deparser_emit packet header => lg.deparser_emit packet header
  | .checksum_update packet c => lg.checksum_update packet c
  | .pipeline_start packet p => lg.pipeline_start packet p
  | .pipeline_done packet p => lg.pipeline_done packet p
  | .condition_eval packet cond result => lg.condition_eval packet cond result
  | .table_hit packet table handle => lg.table_hit packet table handle
  | .table_miss packet table => lg.table_miss packet table
  | .action_execute packet action_fn action_data =>
      lg.action_execute packet action_fn action_data
  | .config_change => lg.config_change

/-- The message a given call builds and hands to the transport (read off the
method definitions above). -/
def EventLogger.messageOf (lg : EventLogger) : EventCall → Message
  | .packet_in packet =>
      buildMsg lg.device_id .PacketIn packet.id
        [MsgField.int packet.ingress_port]
  | .packet_out packet =>
      buildMsg lg.device_id .PacketOut packet.id
        [MsgField.int packet.egress_port]
  | .parser_start packet p =>
      buildMsg lg.device_id .ParserStart packet.id [MsgField.int p.id]
  | .parser_done packet p =>
      buildMsg lg.device_id .ParserDone packet.id [MsgField.int p.id]
  | .parser_extract packet header =>
      buildMsg lg.device_id .ParserExtract packet.id [MsgField.int header]
  | .deparser_start packet d =>
      buildMsg lg.device_id .DeparserStart packet.id [MsgField.int d.id]
  | .deparser_done packet d =>
      buildMsg lg.device_id .DeparserDone packet.id [MsgField.int d.id]
  | .deparser_emit packet header =>
      buildMsg lg.device_id .DeparserEmit packet.id [MsgField.int header]
  | .checksum_update packet c =>
      buildMsg lg.device_id .ChecksumUpdate packet.id [MsgField.int c.id]
  | .pipeline_start packet p =>
      buildMsg lg.device_id .PipelineStart packet.id [MsgField.int p.id]
  | .pipeline_done packet p =>
      buildMsg lg.device_id .PipelineDone packet.id [MsgField.int p.id]
  | .condition_eval packet cond result =>
      buildMsg lg.device_id .ConditionEval packet.id
        [MsgField.int cond.id, MsgField.bool result]
  | .table_hit packet table handle =>
      buildMsg lg.device_id .TableHit packet.id
        [MsgField.int table.id, MsgField.int handle]
  | .table_miss packet table =>
      buildMsg lg.device_id .TableMiss packet.id [MsgField.int table.id]
  | .action_execute packet action_fn action_data =>
      buildMsg lg.device_id .ActionExecute packet.id
        [MsgField.int action_fn.id, MsgField.int action_data.ref]
  | .config_change => buildMsgNoPacket lg.device_id .ConfigChange

/-- The per-process state supporting `get` (lines 104-107): a function-local
`static EventLogger` is constructed on the first call and shared by every
later call; before the first call no instance exists. -/
structure ProcessState where
  global_logger : Option EventLogger
deriving DecidableEq

/-- The process before any call to `get` or `init`: the static local of
`get` is not yet constructed. -/
def initialProcessState : ProcessState := { global_logger := none }

/-- `get` (lines 104-107): on first access constructs the static instance
`EventLogger event_logger(TransportIface::make_dummy())` (the `device_id`
argument takes its declared default `0`); every access returns that same
instance. -/
def EventLogger.get (ps : ProcessState) : ProcessState × EventLogger :=
  match ps.global_logger with
  | some lg => (ps, lg)
  | none =>
      let lg := EventLogger.new TransportIface.make_dummy 0
      ({ global_logger := some lg }, lg)

/-- `init` (lines 109-113): two statements, each through `get()` —
`get()->transport_instance = std::move(transport);` then
`get()->device_id = device_id;`. -/
def EventLogger.init (ps : ProcessState) (transport : TransportIface)
    (device_id : device_id_t) : ProcessState :=
  let r1 := EventLogger.get ps
  let ps2 : ProcessState :=
    { global_logger := some { r1.2 with transport_instance := transport } }
  let r2 := EventLogger.get ps2
  { global_logger := some { r2.2 with device_id := device_id } }

/-- `init` invoked with its `device_id` argument omitted: the declaration
(line 110) defaults it to `0`. -/
def EventLogger.initDefault (ps : ProcessState) (transport : TransportIface) :
    ProcessState :=
  EventLogger.init ps transport 0

/-- The global instance as seen after some state transition. -/
def loggerAfter (ps : ProcessState) : EventLogger := (EventLogger.get ps).2

/-- The `BMELOG(fn, ...)` macro (lines 129-133): the list of calls a call
site expands to.  When `BM_ELOG_ON` is defined it expands to the single call
`bm::EventLogger::get()->fn(__VA_ARGS__)`; otherwise it expands to nothing
at all. -/
def BMELOG (elog_on : Bool) (call : EventCall) : List EventCall :=
  if elog_on then [call] else []

/-- Execute one expanded call site against the process state: `get()` the
global instance, invoke the method on it (its publish updates the shared
transport state). -/
def runCall (ps : ProcessState) (call : EventCall) : ProcessState :=
  let r := EventLogger.get ps
  { global_logger := some (r.2.invoke call) }

/-- Execute a sequence of `BMELOG` call sites under the given build
configuration. -/
def runSites (elog_on : Bool) (ps : ProcessState) (calls : List EventCall) :
    ProcessState :=
  calls.foldl (fun s c => (BMELOG elog_on c).foldl runCall s) ps

/-- Run a sequence of calls on a logger, collecting the message each call
builds and hands to the transport, in program order. -/
def runEmit : EventLogger → List EventCall → EventLogger × List Message
  | lg, [] => (lg, [])
  | lg, c :: cs =>
      let r := runEmit (lg.invoke c) cs
      (r.1, lg.messageOf c :: r.2)

/-- The first of the two statements in the body of `init` (line 111): the
assignment to `transport_instance` alone. -/
def initAssignTransport (lg : EventLogger) (t : TransportIface) :
    EventLogger :=
  { lg with transport_instance := t }

/-- The second of the two statements in the body of `init` (line 112): the
assignment to `device_id` alone. -/
def initAssignDeviceId (lg : EventLogger) (d : device_id_t) : EventLogger :=
  { lg with device_id := d }

/-- The packet identifier a call makes available to the logger: the id of
the packet argument, when the method's declaration receives a packet;
`config_change` (line 102) receives none. -/
def EventCall.packetId : EventCall → Option Nat
  | .packet_in packet => some packet.id
  | .packet_out packet => some packet.id
  | .parser_start packet _ => some packet.id
  | .parser_done packet _ => some packet.id
  | .parser_extract packet _ => some packet.id
  | .deparser_start packet _ => some packet.id
  | .deparser_done packet _ => some packet.id
  | .deparser_emit packet _ => some packet.id
  | .checksum_update packet _ => some packet.id
  | .pipeline_start packet _ => some packet.id
  | .pipeline_done packet _ => some packet.id
  | .condition_eval packet _ _ => some packet.id
  | .table_hit packet _ _ => some packet.id
  | .table_miss packet _ => some packet.id
  | .action_execute packet _ _ => some packet.id
  | .config_change => none

/-- The event kind a call corresponds to. -/
def EventCall.kind : EventCall → EventKind
  | .packet_in _ => .PacketIn
  | .packet_out _ => .PacketOut
  | .parser_start _ _ => .ParserStart
  | .parser_done _ _ => .ParserDone
  | .parser_extract _ _ => .ParserExtract
  | .deparser_start _ _ => .DeparserStart
  | .deparser_done _ _ => .DeparserDone
  | .deparser_emit _ _ => .DeparserEmit
  | .checksum_update _ _ => .ChecksumUpdate
  | .pipeline_start _ _ => .PipelineStart
  | .pipeline_done _ _ => .PipelineDone
  | .condition_eval _ _ _ => .ConditionEval
  | .table_hit _ _ _ => .TableHit
  | .table_miss _ _ => .TableMiss
  | .action_execute _ _ _ => .ActionExecute
  | .config_change => .ConfigChange

/-- The variant-specific fields as the spec's section 3 table lists them,
row by row and in the row's order; written from the spec's words, to be
compared against the messages the methods build. -/
def EventCall.specExtraFields : EventCall → List MsgField
  | .packet_in packet => [MsgField.int packet.ingress_port]
  | .packet_out packet => [MsgField.int packet.egress_port]
  | .parser_start _ p => [MsgField.int p.id]
  | .parser_done _ p => [MsgField.int p.id]
  | .parser_extract _ header => [MsgField.int header]
  | .deparser_start _ d => [MsgField.int d.id]
  | .deparser_done _ d => [MsgField.int d.id]
  | .deparser_emit _ header => [MsgField.int header]
  | .checksum_update _ c => [MsgField.int c.id]
  | .pipeline_start _ p => [MsgField.int p.id]
  | .pipeline_done _ p => [MsgField.int p.id]
  | .condition_eval _ cond result =>
      [MsgField.int cond.id, MsgField.bool result]
  | .table_hit _ table handle =>
      [MsgField.int table.id, MsgField.int handle]
  | .table_miss _ table => [MsgField.int table.id]
  | .action_execute _ action_fn action_data =>
      [MsgField.int action_fn.id, MsgField.int action_data.ref]
  | .config_change => []

/-- The pair of fields a publisher reads from the global instance when it
builds and publishes a message. -/
def EventLogger.observe (lg : EventLogger) : TransportIface × device_id_t :=
  (lg.transport_instance, lg.device_id)

/-- The (transport, device id) pairs a concurrent publisher can read while
`init lg -> (t, d)` is in progress: the body of `init` is the two plain
assignments above, in order, with no synchronization, so a reader can run
before the first assignment, between the two, or after the second. -/
inductive InitObservation (lg : EventLogger) (t : TransportIface)
    (d : device_id_t) : TransportIface × device_id_t → Prop
  | before : InitObservation lg t d lg.observe
  | between : InitObservation lg t d (initAssignTransport lg t).observe
  | after :
      InitObservation lg t d
        (initAssignDeviceId (initAssignTransport lg t) d).observe

/-- Every per-event method is: build the call's message, emit it. -/
theorem EventLogger.invoke_eq_emit (lg : EventLogger) (c : EventCall) :
    lg.invoke c = lg.emit (lg.messageOf c) := by
  cases c <;> rfl

/-- Emitting never touches the device id. -/
theorem EventLogger.emit_device_id (lg : EventLogger) (m : Message) :
    (lg.emit m).device_id = lg.device_id := rfl

/-- No per-event method touches the device id. -/
theorem EventLogger.invoke_device_id (lg : EventLogger) (c : EventCall) :
    (lg.invoke c).device_id = lg.device_id := by
  rw [lg.invoke_eq_emit c]; rfl

/-- The first field of every built message is the logger's device id. -/
theorem EventLogger.messageOf_head (lg : EventLogger) (c : EventCall) :
    (lg.messageOf c).head? = some (MsgField.int lg.device_id) := by
  cases c <;> rfl

/-- The built message depends on the logger only through its device id. -/
theorem EventLogger.messageOf_congr (lg lg' : EventLogger) (c : EventCall)
    (h : lg.device_id = lg'.device_id) :
    lg.messageOf c = lg'.messageOf c := by
  cases c <;> simp [EventLogger.messageOf, h]

/-- On a logger bound to the dummy transport, every per-event method is the
identity: the message is discarded and nothing is retained. -/
theorem EventLogger.invoke_dummy (lg : EventLogger) (c : EventCall)
    (h : lg.transport_instance = TransportIface.dummy) :
    lg.invoke c = lg := by
  cases lg with
  | mk t d =>
    cases h
    rw [EventLogger.invoke_eq_emit]
    rfl

/-- On a logger bound to a channel transport, every per-event method appends
exactly the one built message to the channel. -/
theorem EventLogger.invoke_channel (ms : List Message) (d : device_id_t)
    (c : EventCall) :
    (EventLogger.mk (TransportIface.channel ms) d).invoke c
      = EventLogger.mk
          (TransportIface.channel
            (ms ++ [(EventLogger.mk (TransportIface.channel ms) d).messageOf c]))
          d := by
  rw [EventLogger.invoke_eq_emit]
  rfl

/-- Once the static instance exists, `get` returns it and leaves the state
untouched. -/
theorem EventLogger.get_some (ps : ProcessState) (lg : EventLogger)
    (h : ps.global_logger = some lg) :
    EventLogger.get ps = (ps, lg) := by
  simp [EventLogger.get, h]

/-- `init` always leaves the global state holding exactly the logger built
from the given transport and device id. -/
theorem EventLogger.init_eq (ps : ProcessState) (t : TransportIface)
    (d : device_id_t) :
    EventLogger.init ps t d
      = { global_logger := some (EventLogger.new t d) } := by
  cases h : ps.global_logger <;>
    simp [EventLogger.init, EventLogger.get, h, EventLogger.new]

/-- Every message collected by a run of calls starts with the device id the
logger had when the run began. -/
theorem runEmit_msg_head (lg : EventLogger) (calls : List EventCall) :
    ∀ msg ∈ (runEmit lg calls).2,
      msg.head? = some (MsgField.int lg.device_id) := by
  induction calls generalizing lg with
  | nil => intro msg h; simp [runEmit] at h
  | cons c cs ih =>
    intro msg h
    simp only [runEmit, List.mem_cons] at h
    rcases h with h | h
    · subst h; exact lg.messageOf_head c
    · have := ih (lg.invoke c) msg h
      rwa [EventLogger.invoke_device_id] at this

/-- C1, counterexample: not every per-event operation builds a message of
the form device id, kind discriminant, packet id, variant fields —
`config_change` receives no packet, and the single message it publishes
holds only the device id and the discriminant, with no packet-id field. -/
theorem C1_counterexample :
    (EventLogger.config_change
        (EventLogger.mk (TransportIface.channel []) 5)).transport_instance.retained
      = [[MsgField.int 5, MsgField.int 15]]
    ∧ ¬ ∃ (pid : Nat) (extra : List MsgField),
        [MsgField.int 5, MsgField.int 15]
          = MsgField.int 5 :: MsgField.int 15 :: MsgField.int pid :: extra := by
  refine ⟨rfl, ?_⟩
  rintro ⟨pid, extra, h⟩
  simp at h

/-- C1, amended: every per-event operation that receives a packet builds one
message whose fields are, in order, the device id, the kind discriminant,
the packet id, then the variant-specific fields of the spec's section 3
table, and publishes exactly that one message; `config_change` (no packet)
publishes one message with only device id and discriminant.  In particular
`table_hit` on a packet with id 42, table id 3 and handle 99 publishes
exactly one message decoding to (device id, TableHit, 42, 3, 99). -/
theorem C1_message_fields_in_order (lg : EventLogger) (c : EventCall)
    (pid : Nat) (h : c.packetId = some pid) :
    lg.messageOf c
      = MsgField.int lg.device_id :: MsgField.int c.kind.discriminant
        :: MsgField.int pid :: c.specExtraFields
    ∧ (∀ ms : List Message,
        ((EventLogger.mk (TransportIface.channel ms) lg.device_id).invoke
            c).transport_instance.retained
          = ms ++ [lg.messageOf c])
    ∧ ∀ (dev : device_id_t) (ms : List Message),
        ((EventLogger.mk (TransportIface.channel ms) dev).table_hit
            (Packet.mk 42 0 0) (MatchTableAbstract.mk 3)
            99).transport_instance.retained
          = ms ++ [[MsgField.int dev, MsgField.int 12, MsgField.int 42,
                    MsgField.int 3, MsgField.int 99]] := by
  refine ⟨?_, ?_, fun dev ms => rfl⟩
  · cases c <;>
      simp_all [EventLogger.messageOf, EventCall.packetId, EventCall.kind,
        EventCall.specExtraFields, buildMsg]
  · intro ms
    rw [EventLogger.invoke_channel]
    simp only [TransportIface.retained, List.append_cancel_left_eq]
    exact List.cons_eq_cons.mpr
      ⟨EventLogger.messageOf_congr _ lg c rfl, rfl⟩

/-- C1, witness: the amended theorem at the spec's concrete scenario. -/
theorem C1_witness :
    (EventLogger.mk (TransportIface.channel []) 5).messageOf
        (EventCall.table_hit (Packet.mk 42 0 0) (MatchTableAbstract.mk 3) 99)
      = [MsgField.int 5, MsgField.int 12, MsgField.int 42, MsgField.int 3,
         MsgField.int 99] :=
  (C1_message_fields_in_order (EventLogger.mk (TransportIface.channel []) 5)
      (EventCall.table_hit (Packet.mk 42 0 0) (MatchTableAbstract.mk 3) 99)
      42 rfl).1

/-- C2: before any `init`, the process state holds no instance; `get`
lazily creates the instance, stores it, and returns it bound to the dummy
transport with device id 0; invoking any event method on it is the identity
(safe, no observable effect) and its transport retains nothing. -/
theorem C2_get_before_init :
    initialProcessState.global_logger = none
    ∧ (EventLogger.get initialProcessState).1.global_logger
        = some (EventLogger.get initialProcessState).2
    ∧ (EventLogger.get initialProcessState).2
        = EventLogger.new TransportIface.make_dummy 0
    ∧ (∀ c : EventCall,
        (EventLogger.get initialProcessState).2.invoke c
          = (EventLogger.get initialProcessState).2)
    ∧ (EventLogger.get initialProcessState).2.transport_instance.retained
        = [] :=
  ⟨rfl, rfl, rfl, fun c => EventLogger.invoke_dummy _ c rfl, rfl⟩

/-- C3: `init` replaces the global instance's transport and device id; after
`init` with device id 7 every message emitted by any subsequent run of calls
starts with device id 7; re-initialization composes and is legal at any
time. -/
theorem C3_init_replaces (ps : ProcessState) (t : TransportIface)
    (d : device_id_t) :
    EventLogger.init ps t d = { global_logger := some (EventLogger.new t d) }
    ∧ (∀ (calls : List EventCall) (msg : Message),
        msg ∈ (runEmit (loggerAfter (EventLogger.init ps t 7)) calls).2 →
          msg.head? = some (MsgField.int 7))
    ∧ ∀ (t' : TransportIface) (d' : device_id_t),
        EventLogger.init (EventLogger.init ps t d) t' d'
          = { global_logger := some (EventLogger.new t' d') } := by
  refine ⟨EventLogger.init_eq ps t d, ?_,
    fun t' d' => EventLogger.init_eq _ t' d'⟩
  intro calls msg h
  have hlg : loggerAfter (EventLogger.init ps t 7) = EventLogger.new t 7 := by
    rw [EventLogger.init_eq]; rfl
  rw [hlg] at h
  exact runEmit_msg_head _ calls msg h

/-- C3, witness: the theorem at a concrete run (one `config_change` after
`init` with device id 7). -/
theorem C3_witness :
    ([MsgField.int 7, MsgField.int 15] : Message).head?
      = some (MsgField.int 7) :=
  (C3_init_replaces initialProcessState TransportIface.dummy 0).2.1
    [EventCall.config_change] [MsgField.int 7, MsgField.int 15] (by decide)

/-- C4, counterexample: the ConfigChange message does not carry a packet
identifier (nor any sequence value): the one message `config_change`
publishes has exactly two fields — device id and kind discriminant — so it
cannot be of the form device id, kind, packet id, rest. -/
theorem C4_counterexample :
    (EventLogger.config_change
        (EventLogger.mk (TransportIface.channel []) 4)).transport_instance.retained
      = [buildMsgNoPacket 4 EventKind.ConfigChange]
    ∧ (buildMsgNoPacket 4 EventKind.ConfigChange).length = 2
    ∧ ¬ ∃ (pid : Nat) (rest : List MsgField),
        buildMsgNoPacket 4 EventKind.ConfigChange
          = MsgField.int 4 :: MsgField.int 15 :: MsgField.int pid :: rest := by
  refine ⟨rfl, rfl, ?_⟩
  rintro ⟨pid, rest, h⟩
  simp [buildMsgNoPacket, EventKind.discriminant] at h

/-- C4, amended: every event variant whose method receives a packet carries
the packet identifier as the third field of its message; ConfigChange, whose
method receives no packet, carries only the device id and its kind
discriminant and nothing else. -/
theorem C4_packet_id_field (lg : EventLogger) (c : EventCall) (pid : Nat)
    (h : c.packetId = some pid) :
    (lg.messageOf c)[2]? = some (MsgField.int pid)
    ∧ ∀ lg' : EventLogger,
        lg'.messageOf EventCall.config_change
          = [MsgField.int lg'.device_id,
             MsgField.int EventKind.ConfigChange.discriminant] := by
  refine ⟨?_, fun lg' => rfl⟩
  cases c <;>
    simp_all [EventLogger.messageOf, EventCall.packetId, buildMsg]

/-- C4, witness: the amended theorem at a concrete `packet_in` call. -/
theorem C4_witness :
    ((EventLogger.mk TransportIface.dummy 0).messageOf
        (EventCall.packet_in (Packet.mk 9 2 3)))[2]?
      = some (MsgField.int 9) :=
  (C4_packet_id_field (EventLogger.mk TransportIface.dummy 0)
      (EventCall.packet_in (Packet.mk 9 2 3)) 9 rfl).1

/-- C5: with `BM_ELOG_ON` off, every `BMELOG` call site expands to the empty
statement list, and running any number of call sites leaves the process
state (hence the global logger and every retained message) exactly
unchanged. -/
theorem C5_disabled_build (ps : ProcessState) (calls : List EventCall)
    (c : EventCall) :
    BMELOG false c = [] ∧ runSites false ps calls = ps := by
  refine ⟨rfl, ?_⟩
  induction calls generalizing ps with
  | nil => rfl
  | cons c' cs ih =>
      have hstep : runSites false ps (c' :: cs) = runSites false ps cs := rfl
      rw [hstep]
      exact ih ps

/-- C6: every event-emitting operation is total towards its caller: its
result is the one well-defined logger obtained by building the message and
emitting it, the device id is untouched, and the only two possible outcomes
are "published" (message appended to the channel) or "silently dropped"
(retained messages unchanged) — no error is ever surfaced. -/
theorem C6_total_no_error (lg : EventLogger) (c : EventCall) :
    lg.invoke c = lg.emit (lg.messageOf c)
    ∧ (lg.invoke c).device_id = lg.device_id
    ∧ ((lg.invoke c).transport_instance.retained
          = lg.transport_instance.retained ++ [lg.messageOf c]
        ∨ (lg.invoke c).transport_instance.retained
          = lg.transport_instance.retained) := by
  refine ⟨lg.invoke_eq_emit c, lg.invoke_device_id c, ?_⟩
  rw [lg.invoke_eq_emit c]
  cases htr : lg.transport_instance with
  | dummy =>
      right
      simp [EventLogger.emit, TransportIface.publish, htr,
        TransportIface.retained]
  | channel ms =>
      left
      simp [EventLogger.emit, TransportIface.publish, htr,
        TransportIface.retained]

/-- C7: an event-emitting operation mutates nothing beyond handing the one
built message to the transport's publish: the resulting logger is exactly
the input logger with its transport advanced by that single publish — the
device id, and (packets and pipeline objects being taken by const reference
and modelled as immutable values) every other input, is unchanged. -/
theorem C7_frame (lg : EventLogger) (c : EventCall) :
    lg.invoke c
      = EventLogger.mk (lg.transport_instance.publish (lg.messageOf c)).1
          lg.device_id := by
  rw [lg.invoke_eq_emit c]; rfl

/-- C8, counterexample: the body of `init` is two separate unsynchronized
assignments, so a publisher running between them observes the new transport
paired with the old device id — a pair that is neither the old
(transport, device id) pair nor the new one, refuting the claimed
indivisible swap / consistent snapshot. -/
theorem C8_counterexample :
    InitObservation (EventLogger.mk (TransportIface.channel []) 7)
      TransportIface.dummy 9 (TransportIface.dummy, 7)
    ∧ (TransportIface.dummy, (7 : device_id_t))
        ≠ (EventLogger.mk (TransportIface.channel []) 7).observe
    ∧ (TransportIface.dummy, (7 : device_id_t))
        ≠ (EventLogger.mk TransportIface.dummy 9).observe :=
  ⟨InitObservation.between, by decide, by decide⟩

/-- C8, amended: a publisher overlapping `init` may observe the new
transport paired with the old device id (the two fields are assigned one
after the other, with no synchronization); but each field it observes is,
individually, either the old or the new value — never a third value. -/
theorem C8_field_old_or_new (lg : EventLogger) (t : TransportIface)
    (d : device_id_t) (obs : TransportIface × device_id_t)
    (h : InitObservation lg t d obs) :
    (obs.1 = lg.transport_instance ∨ obs.1 = t)
    ∧ (obs.2 = lg.device_id ∨ obs.2 = d) := by
  cases h with
  | before => exact ⟨Or.inl rfl, Or.inl rfl⟩
  | between => exact ⟨Or.inr rfl, Or.inl rfl⟩
  | after => exact ⟨Or.inr rfl, Or.inr rfl⟩

/-- C8, witness: the amended theorem at a concrete observation (a reader
running before the first assignment). -/
theorem C8_witness :
    ((EventLogger.mk (TransportIface.channel []) 7).observe.1
        = (EventLogger.mk (TransportIface.channel []) 7).transport_instance
      ∨ (EventLogger.mk (TransportIface.channel []) 7).observe.1
        = TransportIface.dummy)
    ∧ ((EventLogger.mk (TransportIface.channel []) 7).observe.2 = 7
      ∨ (EventLogger.mk (TransportIface.channel []) 7).observe.2 = 9) :=
  C8_field_old_or_new (EventLogger.mk (TransportIface.channel []) 7)
    TransportIface.dummy 9 _ InitObservation.before

/-- C9: calling `init` with the `device_id` argument omitted resets the
global device id to 0 — even when a previous `init` had configured it to 7 —
and the constructor invoked without a device id likewise yields 0. -/
theorem C9_default_device_id_zero (ps : ProcessState)
    (t t' : TransportIface) :
    loggerAfter (EventLogger.initDefault ps t) = EventLogger.new t 0
    ∧ (loggerAfter
        (EventLogger.initDefault (EventLogger.init ps t' 7) t)).device_id = 0
    ∧ (EventLogger.newDefault t).device_id = 0 := by
  refine ⟨?_, ?_, rfl⟩
  · rw [EventLogger.initDefault, EventLogger.init_eq]; rfl
  · rw [EventLogger.initDefault, EventLogger.init_eq]; rfl

/-- C10: `get` is idempotent: once the state holds the instance, `get`
returns exactly that instance without changing the state (it never
constructs a second one), and from any state whatsoever a `get` followed by
another `get` returns the very same state and instance. -/
theorem C10_get_idempotent (ps : ProcessState) (lg : EventLogger)
    (h : ps.global_logger = some lg) :
    EventLogger.get ps = (ps, lg)
    ∧ ∀ ps' : ProcessState,
        (EventLogger.get ps').1.global_logger
            = some (EventLogger.get ps').2
        ∧ EventLogger.get (EventLogger.get ps').1
            = ((EventLogger.get ps').1, (EventLogger.get ps').2) := by
  refine ⟨EventLogger.get_some ps lg h, ?_⟩
  intro ps'
  cases h' : ps'.global_logger with
  | none => refine ⟨?_, ?_⟩ <;> simp [EventLogger.get, h']
  | some lg' =>
      rw [EventLogger.get_some ps' lg' h']
      exact ⟨h', EventLogger.get_some ps' lg' h'⟩

/-- C10, witness: the theorem at a concrete already-initialized state. -/
theorem C10_witness :
    EventLogger.get
        { global_logger := some (EventLogger.mk TransportIface.dummy 3) }
      = ({ global_logger := some (EventLogger.mk TransportIface.dummy 3) },
         EventLogger.mk TransportIface.dummy 3) :=
  (C10_get_idempotent
      { global_logger := some (EventLogger.mk TransportIface.dummy 3) }
      (EventLogger.mk TransportIface.dummy 3) rfl).1

end bm
